import Mathlib

/-!
Shallow embedding of the content-analysis and recommendation-generation
core of the AI-SEO-Buddy repository (src/app/analyzer.py and
src/app/recommendations.py), together with theorems checking the
natural-language specification against it.

Strings are modelled through their character lists (`String.data`), and
Python string primitives (`str.lower`, `str.startswith`, `in`,
`str.count`, `re.findall`) are given explicit executable definitions on
character lists.  Numeric densities are modelled as exact rationals with
round-half-to-even at two decimals standing in for Python `round(x, 2)`;
audit scores are modelled as integers (Lighthouse category scores are
integers in [0,100]).
-/

/-- ASCII model of Python `str.lower`: lower-case each character. -/
def pyLower (s : String) : String := String.mk (s.data.map Char.toLower)

/-- Model of Python `str.startswith`: `strStarts s pre` holds when `pre`
is a prefix of `s`. -/
def strStarts (s pre : String) : Bool := pre.data.isPrefixOf s.data

/-- Model of the Python `in` operator on strings: substring containment. -/
def containsSub (pat : List Char) : List Char → Bool
  | [] => pat.isEmpty
  | c :: rest => pat.isPrefixOf (c :: rest) || containsSub pat rest

/-- Greedy left-to-right non-overlapping pattern counting: the scan of
Python `str.count` for a non-empty pattern.  The second argument is the
number of remaining characters to skip after a match. -/
def countAux (pat : List Char) : List Char → Nat → Nat
  | [], _ => 0
  | _ :: rest, Nat.succ skip => countAux pat rest skip
  | c :: rest, 0 =>
    if pat.isPrefixOf (c :: rest) then 1 + countAux pat rest (pat.length - 1)
    else countAux pat rest 0

/-- Model of Python `str.count`: number of non-overlapping occurrences of
`pat` in `s` (for the empty pattern Python counts `len(s) + 1`). -/
def pyCount (pat s : List Char) : Nat :=
  if pat.isEmpty then s.length + 1 else countAux pat s 0

/-- ASCII model of the regex word character class `\w`. -/
def isWordChar (c : Char) : Bool := c.isAlphanum || c == '_'

/-- Accumulator-based scan extracting the maximal runs of word
characters, in order; `cur` holds the (reversed) run in progress. -/
def tokensAux : List Char → List Char → List (List Char)
  | [], cur => if cur.isEmpty then [] else [cur.reverse]
  | c :: rest, cur =>
    if isWordChar c then tokensAux rest (c :: cur)
    else if cur.isEmpty then tokensAux rest []
    else cur.reverse :: tokensAux rest []

/-- Model of `re.findall` with pattern `\b\w+\b`: the maximal runs of
word characters of the string, in order. -/
def wordTokens (s : String) : List (List Char) := tokensAux s.data []

/-- First-occurrence deduplication: the key sequence of a Python dict
built by inserting the listed keys in order. -/
def dedupAux : List String → List String → List String
  | [], _ => []
  | k :: rest, seen =>
    if k ∈ seen then dedupAux rest seen else k :: dedupAux rest (k :: seen)

/-- Round-half-to-even to the nearest integer, the tie-break rule of
Python `round` (modelled on exact rationals). -/
def roundHalfEven (x : Rat) : Int :=
  let n : Int := ⌊x⌋
  let frac : Rat := x - (n : Rat)
  if frac < 1/2 then n
  else if (1/2 : Rat) < frac then n + 1
  else if n % 2 = 0 then n else n + 1

/-- Model of Python `round(x, 2)`. -/
def round2 (x : Rat) : Rat := ((roundHalfEven (x * 100) : Int) : Rat) / 100

/-- Decimal rendering of a two-decimal rational as Python prints the
corresponding float (trailing zeros trimmed, at least one fractional
digit). -/
def pyFloatRepr (q : Rat) : String :=
  let scaled : Int := ⌊q * 100⌋
  let whole : Int := scaled / 100
  let frac : Nat := (scaled % 100).toNat
  if frac == 0 then toString whole ++ ".0"
  else if frac % 10 == 0 then toString whole ++ "." ++ toString (frac / 10)
  else if frac < 10 then toString whole ++ ".0" ++ toString frac
  else toString whole ++ "." ++ toString frac

/-! ## Data model (section 3 of the specification) -/

/-- A link entry of a page snapshot (scraper output). -/
structure Link where
  href : String
  text : String
deriving DecidableEq

/-- An image entry of a page snapshot (scraper output). -/
structure Image where
  src : String
  alt : String
deriving DecidableEq

/-- The per-level heading texts of a page snapshot. -/
structure Headings where
  h1 : List String
  h2 : List String
  h3 : List String
deriving DecidableEq

/-- A page snapshot, the dictionary produced by `scrape_url` and consumed
by `analyze_content`. -/
structure Snapshot where
  url : String
  title : String
  meta_description : String
  headings : Headings
  content : String
  links : List Link
  images : List Image
deriving DecidableEq

/-- The four audit scores consumed by `generate_recommendations`. -/
structure AuditScores where
  performance : Nat
  seo : Nat
  accessibility : Nat
  best_practices : Nat
deriving DecidableEq

/-- The `title` (and, with `has_meta` read for `has_title`, the
`meta_description`) sub-record of an analysis result. -/
structure TitleAnalysis where
  length : Nat
  has_title : Bool
  optimal_length : Bool
deriving DecidableEq

/-- The `meta_description` sub-record of an analysis result. -/
structure MetaAnalysis where
  length : Nat
  has_meta : Bool
  optimal_length : Bool
deriving DecidableEq

/-- The `headings` sub-record of an analysis result. -/
structure HeadingsAnalysis where
  h1_count : Nat
  h2_count : Nat
  h3_count : Nat
  has_proper_structure : Bool
deriving DecidableEq

/-- The `content` sub-record of an analysis result. -/
structure ContentAnalysis where
  word_count : Nat
  has_sufficient_content : Bool
deriving DecidableEq

/-- The per-keyword metrics of an analysis result. -/
structure KeywordData where
  count : Nat
  density : Rat
  in_title : Bool
  in_meta : Bool
  in_headings : Bool
deriving DecidableEq

/-- The `links` sub-record of an analysis result. -/
structure LinksAnalysis where
  internal_count : Nat
  external_count : Nat
  total_count : Nat
deriving DecidableEq

/-- The `images` sub-record of an analysis result. -/
structure ImagesAnalysis where
  total_count : Nat
  missing_alt_count : Nat
deriving DecidableEq

/-- The analysis dictionary returned by `analyze_content`.  The
`keywords` field is `none` exactly when the Python dictionary carries no
`"keywords"` key; otherwise it is the ordered key/value list of the
per-keyword dictionary. -/
structure AnalysisResult where
  title : TitleAnalysis
  meta_description : MetaAnalysis
  headings : HeadingsAnalysis
  content : ContentAnalysis
  keywords : Option (List (String × KeywordData))
  links : LinksAnalysis
  images : ImagesAnalysis
deriving DecidableEq

/-! ## The analyzer (src/app/analyzer.py) -/

/-- Body of the keyword loop of `analyze_content`: the metrics entry
computed for one keyword, given the snapshot and the word count of its
body text. -/
def keywordMetrics (content : Snapshot) (word_count : Nat) (keyword : String) :
    String × KeywordData :=
  let keyword_lower := pyLower keyword
  let exact_matches := pyCount keyword_lower.data (pyLower content.content).data
  let density : Rat :=
    if 0 < word_count then (exact_matches : Rat) / (word_count : Rat) * 100 else 0
  (keyword,
    { count := exact_matches
      density := round2 density
      in_title := containsSub keyword_lower.data (pyLower content.title).data
      in_meta := containsSub keyword_lower.data (pyLower content.meta_description).data
      in_headings :=
        (content.headings.h1 ++ content.headings.h2 ++ content.headings.h3).any
          (fun h => containsSub keyword_lower.data (pyLower h).data) })

/-- Embedding of `analyze_content` from src/app/analyzer.py.  A `none`
keyword argument is Python `keywords=None`; Python treats `None` and the
empty list alike (`if keywords:`), so the `keywords` field is only
populated for a non-empty keyword list. -/
def analyze_content (content : Snapshot) (keywords : Option (List String) := none) :
    AnalysisResult :=
  let title := content.title
  let meta_desc := content.meta_description
  let text := content.content
  let words := wordTokens (pyLower text)
  let word_count := words.length
  let kws := keywords.getD []
  { title :=
      { length := title.length
        has_title := !title.data.isEmpty
        optimal_length :=
          if title.data.isEmpty then false
          else decide (50 ≤ title.length) && decide (title.length ≤ 60) }
    meta_description :=
      { length := meta_desc.length
        has_meta := !meta_desc.data.isEmpty
        optimal_length :=
          if meta_desc.data.isEmpty then false
          else decide (150 ≤ meta_desc.length) && decide (meta_desc.length ≤ 160) }
    headings :=
      { h1_count := content.headings.h1.length
        h2_count := content.headings.h2.length
        h3_count := content.headings.h3.length
        has_proper_structure := content.headings.h1.length == 1 }
    content :=
      { word_count := word_count
        has_sufficient_content := decide (300 ≤ word_count) }
    keywords :=
      if kws.isEmpty then none
      else some ((dedupAux kws []).map (keywordMetrics content word_count))
    links :=
      { internal_count :=
          (content.links.filter
            (fun link => strStarts link.href "/" || strStarts link.href content.url)).length
        external_count :=
          (content.links.filter
            (fun link => strStarts link.href "http" || strStarts link.href "https")).length
        total_count := content.links.length }
    images :=
      { total_count := content.images.length
        missing_alt_count := (content.images.filter (fun img => img.alt.data.isEmpty)).length } }

/-! ## The recommendation generator (src/app/recommendations.py)

Each message literal of the source is given a named definition; the
parameterized ones take the interpolated value as an argument.  Audit
scores are rendered with Python `"{:.0f}"`, which on an integer score is
plain decimal notation. -/

/-- Message of the absent-title rule. -/
def msgTitleMissing : String := "Add a title tag to your page"

/-- Message of the title-length rule. -/
def msgTitleLength : String :=
  "Adjust title length to be between 50-60 characters for optimal display in search results"

/-- Message of the absent-meta-description rule. -/
def msgMetaMissing : String := "Add a meta description to your page"

/-- Message of the meta-description-length rule. -/
def msgMetaLength : String :=
  "Adjust meta description length to be between 150-160 characters for optimal display"

/-- Message of the no-H1 rule. -/
def msgH1Missing : String := "Add an H1 heading to your page"

/-- Message of the multiple-H1 rule. -/
def msgH1Multiple : String := "Use only one H1 heading per page"

/-- Message of the thin-content rule. -/
def msgThinContent : String := "Add more content to your page (aim for at least 300 words)"

/-- Message of the keyword-absent-everywhere rule. -/
def msgKwInclude (k : String) : String :=
  "Include the keyword \x27" ++
    (k ++ "\x27 in your title, meta description, or headings")

/-- Message of the keyword-under-used rule. -/
def msgKwIncrease (k : String) (d : Rat) : String :=
  "Consider increasing the usage of keyword \x27" ++
    (k ++ ("\x27 (current density: " ++ (pyFloatRepr d ++ "%)")))

/-- Message of the keyword-over-used rule. -/
def msgKwReduce (k : String) (d : Rat) : String :=
  "Reduce the usage of keyword \x27" ++
    (k ++ ("\x27 to avoid keyword stuffing (current density: " ++ (pyFloatRepr d ++ "%)")))

/-- Message of the missing-alt-text rule. -/
def msgAltText (n : Nat) : String := "Add alt text to " ++ (toString n ++ " images")

/-- Message of the no-internal-links rule. -/
def msgInternalLinks : String := "Add internal links to improve site navigation"

/-- Message of the no-external-links rule. -/
def msgExternalLinks : String := "Consider adding relevant external links"

/-- Critical message of the performance rule. -/
def msgPerfCritical (p : Nat) : String :=
  "Improve page performance (current score: " ++ (toString p ++ "/100)")

/-- Important message of the performance rule. -/
def msgPerfImprove (p : Nat) : String :=
  "Consider optimizing page performance (current score: " ++ (toString p ++ "/100)")

/-- Message of the technical-SEO rule. -/
def msgSeoIssues (p : Nat) : String :=
  "Address technical SEO issues (current score: " ++ (toString p ++ "/100)")

/-- Message of the accessibility rule. -/
def msgAccessibility (p : Nat) : String :=
  "Improve accessibility (current score: " ++ (toString p ++ "/100)")

/-- The three severity buckets returned by `generate_recommendations`. -/
structure Recommendations where
  critical : List String
  important : List String
  minor : List String
deriving DecidableEq

/-- Contribution of one keyword entry to the `important` bucket: the
absent-everywhere check, then the density check whose over-used branch is
the `elif` of the under-used (minor) branch. -/
def keywordImportantRecs (kv : String × KeywordData) : List String :=
  (if !kv.2.in_title && !kv.2.in_meta && !kv.2.in_headings
    then [msgKwInclude kv.1] else []) ++
  (if kv.2.density < 1/2 then []
   else if 3 < kv.2.density then [msgKwReduce kv.1 kv.2.density] else [])

/-- Contribution of one keyword entry to the `minor` bucket. -/
def keywordMinorRecs (kv : String × KeywordData) : List String :=
  if kv.2.density < 1/2 then [msgKwIncrease kv.1 kv.2.density] else []

/-- Embedding of `generate_recommendations` from
src/app/recommendations.py.  The source appends to the three buckets
while evaluating its rules top to bottom; here each bucket is the
concatenation, in that same order, of the contributions of the rules
that target it. -/
def generate_recommendations (analysis : AnalysisResult) (lighthouse : AuditScores) :
    Recommendations :=
  let kvs := analysis.keywords.getD []
  { critical :=
      (if !analysis.title.has_title then [msgTitleMissing] else []) ++
      (if !analysis.meta_description.has_meta then [msgMetaMissing] else []) ++
      (if !analysis.headings.has_proper_structure && analysis.headings.h1_count == 0
        then [msgH1Missing] else []) ++
      (if lighthouse.performance < 90 then [msgPerfCritical lighthouse.performance] else [])
    important :=
      (if analysis.title.has_title && !analysis.title.optimal_length
        then [msgTitleLength] else []) ++
      (if analysis.meta_description.has_meta && !analysis.meta_description.optimal_length
        then [msgMetaLength] else []) ++
      (if !analysis.headings.has_proper_structure && !(analysis.headings.h1_count == 0) &&
          1 < analysis.headings.h1_count
        then [msgH1Multiple] else []) ++
      (if !analysis.content.has_sufficient_content then [msgThinContent] else []) ++
      (kvs.map keywordImportantRecs).flatten ++
      (if 0 < analysis.images.missing_alt_count
        then [msgAltText analysis.images.missing_alt_count] else []) ++
      (if !(lighthouse.performance < 90) && lighthouse.performance < 95
        then [msgPerfImprove lighthouse.performance] else []) ++
      (if lighthouse.seo < 90 then [msgSeoIssues lighthouse.seo] else []) ++
      (if lighthouse.accessibility < 90 then [msgAccessibility lighthouse.accessibility] else [])
    minor :=
      (kvs.map keywordMinorRecs).flatten ++
      (if analysis.links.internal_count == 0 then [msgInternalLinks] else []) ++
      (if analysis.links.external_count == 0 then [msgExternalLinks] else []) }

/-! ## Concrete example inputs -/

/-- The empty-page snapshot of the specification example (section 8). -/
def exSnapshot : Snapshot :=
  { url := "https://x.com"
    title := ""
    meta_description := ""
    headings := { h1 := [], h2 := [], h3 := [] }
    content := ""
    links := []
    images := [] }

/-- The all-50 audit of the specification example (section 8). -/
def exAudit : AuditScores :=
  { performance := 50, seo := 50, accessibility := 50, best_practices := 50 }

/-! ## Helper lemmas -/

/-- A string is the empty string exactly when its character list is empty. -/
theorem str_eq_empty_iff (t : String) : t = "" ↔ t.data = [] := by
  constructor
  · intro h; rw [h]
  · intro h; cases t; simp_all

/-- Shape of the `optimal_length` computation shared by the title and
meta-description analyses. -/
theorem optFlag_spec (t : String) (lo hi : Nat) :
    ((if t.data.isEmpty then false
      else decide (lo ≤ t.length) && decide (t.length ≤ hi)) = true)
      ↔ (t ≠ "" ∧ lo ≤ t.length ∧ t.length ≤ hi) := by
  by_cases he : t.data.isEmpty
  · simp [he, str_eq_empty_iff, List.isEmpty_iff.mp he]
  · have : t ≠ "" := by
      intro h
      exact he (by simp [(str_eq_empty_iff t).mp h])
    simp [he, this, and_assoc]

/-! ## Claim theorems -/

/-- C1: on the empty-page snapshot (empty title, meta description,
headings, content, no links or images, url `https://x.com`, no
keywords), the analysis reports no title, no meta description, zero H1
headings, zero words and insufficient content, and with an all-50 audit
the recommendations are: critical exactly the four listed messages,
important exactly the thin-content, technical-SEO and accessibility
messages, and minor exactly the internal-links and external-links
messages. -/
theorem c1_empty_page_report :
    (analyze_content exSnapshot none).title.has_title = false ∧
    (analyze_content exSnapshot none).meta_description.has_meta = false ∧
    (analyze_content exSnapshot none).headings.h1_count = 0 ∧
    (analyze_content exSnapshot none).content.word_count = 0 ∧
    (analyze_content exSnapshot none).content.has_sufficient_content = false ∧
    (generate_recommendations (analyze_content exSnapshot none) exAudit).critical =
      ["Add a title tag to your page",
       "Add a meta description to your page",
       "Add an H1 heading to your page",
       "Improve page performance (current score: 50/100)"] ∧
    (generate_recommendations (analyze_content exSnapshot none) exAudit).important =
      ["Add more content to your page (aim for at least 300 words)",
       "Address technical SEO issues (current score: 50/100)",
       "Improve accessibility (current score: 50/100)"] ∧
    (generate_recommendations (analyze_content exSnapshot none) exAudit).minor =
      ["Add internal links to improve site navigation",
       "Consider adding relevant external links"] := by
  decide

/-- C8: both core functions are deterministic pure functions — runs on
equal inputs return equal outputs. -/
theorem c8_deterministic :
    (∀ (s₁ s₂ : Snapshot) (k₁ k₂ : Option (List String)), s₁ = s₂ → k₁ = k₂ →
      analyze_content s₁ k₁ = analyze_content s₂ k₂) ∧
    (∀ (a₁ a₂ : AnalysisResult) (l₁ l₂ : AuditScores), a₁ = a₂ → l₁ = l₂ →
      generate_recommendations a₁ l₁ = generate_recommendations a₂ l₂) :=
  ⟨fun _ _ _ _ hs hk => hs ▸ hk ▸ rfl, fun _ _ _ _ ha hl => ha ▸ hl ▸ rfl⟩

/-- Witness for C8 at the concrete example inputs. -/
theorem c8_deterministic_witness :
    analyze_content exSnapshot none = analyze_content exSnapshot none ∧
    generate_recommendations (analyze_content exSnapshot none) exAudit =
      generate_recommendations (analyze_content exSnapshot none) exAudit :=
  ⟨c8_deterministic.1 exSnapshot exSnapshot none none rfl rfl,
   c8_deterministic.2 (analyze_content exSnapshot none) (analyze_content exSnapshot none)
     exAudit exAudit rfl rfl⟩

/-- C9: analysing with an empty keyword list is identical to analysing
with no keyword list at all — the empty list is falsy in Python, so the
`keywords` field stays absent in both cases. -/
theorem c9_empty_keywords_eq_none (s : Snapshot) :
    analyze_content s (some []) = analyze_content s none := rfl

/-- C10: link and image counts of every analysis are consistent — the
internal and external counts are bounded by the total link count, the
totals equal the lengths of the snapshot sequences, and (being `Nat`)
all counts are non-negative. -/
theorem c10_count_invariants (s : Snapshot) (kw : Option (List String)) :
    (analyze_content s kw).links.internal_count ≤ (analyze_content s kw).links.total_count ∧
    (analyze_content s kw).links.external_count ≤ (analyze_content s kw).links.total_count ∧
    (analyze_content s kw).links.total_count = s.links.length ∧
    (analyze_content s kw).images.missing_alt_count ≤ (analyze_content s kw).images.total_count ∧
    (analyze_content s kw).images.total_count = s.images.length :=
  ⟨List.length_filter_le _ s.links, List.length_filter_le _ s.links, rfl,
   List.length_filter_le _ s.images, rfl⟩

/-- C4: the title analysis reports an optimal length exactly for a
non-empty title of length between 50 and 60 inclusive, and never for an
empty title; the meta description behaves the same with the inclusive
range 150 to 160. -/
theorem c4_optimal_length_boundaries (s : Snapshot) (kw : Option (List String)) :
    ((analyze_content s kw).title.optimal_length = true ↔
      (s.title ≠ "" ∧ 50 ≤ s.title.length ∧ s.title.length ≤ 60)) ∧
    (s.title = "" → (analyze_content s kw).title.optimal_length = false) ∧
    ((analyze_content s kw).meta_description.optimal_length = true ↔
      (s.meta_description ≠ "" ∧ 150 ≤ s.meta_description.length ∧
        s.meta_description.length ≤ 160)) ∧
    (s.meta_description = "" →
      (analyze_content s kw).meta_description.optimal_length = false) := by
  refine ⟨optFlag_spec s.title 50 60, ?_, optFlag_spec s.meta_description 150 160, ?_⟩
  · intro h
    show (if s.title.data.isEmpty then false else _) = false
    simp [(str_eq_empty_iff s.title).mp h]
  · intro h
    show (if s.meta_description.data.isEmpty then false else _) = false
    simp [(str_eq_empty_iff s.meta_description).mp h]

/-! ## Link classification (C3) -/

/-- A `strStarts` test is the decidable list-prefix relation on the
character lists. -/
theorem strStarts_eq_decide (s pre : String) :
    strStarts s pre = decide (pre.data <+: s.data) := by
  rw [Bool.eq_iff_iff]
  simp [strStarts, List.isPrefixOf_iff_prefix]

/-- Snapshot with a single link that is neither internal nor external. -/
def c3NeitherSnapshot : Snapshot :=
  { url := "https://x.com"
    title := ""
    meta_description := ""
    headings := { h1 := [], h2 := [], h3 := [] }
    content := ""
    links := [{ href := "mailto:bob@x.com", text := "contact" }]
    images := [] }

/-- Snapshot with a single link that both internal and external count
(its href starts with the page url, which itself starts with `http`). -/
def c3BothSnapshot : Snapshot :=
  { url := "https://x.com"
    title := ""
    meta_description := ""
    headings := { h1 := [], h2 := [], h3 := [] }
    content := ""
    links := [{ href := "https://x.com/about", text := "about" }]
    images := [] }

/-- C3: a link is counted as internal exactly when its href starts with
`/` or with the page url, and as external exactly when it starts with
`http` or `https`; the mailto example is counted by neither predicate,
and the example whose href extends the page's own https url is counted
by both, so internal plus external counts exceed the total there —
the double counting is preserved. -/
theorem c3_link_classification :
    (∀ (s : Snapshot) (kw : Option (List String)),
      (analyze_content s kw).links.internal_count =
        s.links.countP
          (fun l => decide ("/".data <+: l.href.data ∨ s.url.data <+: l.href.data)) ∧
      (analyze_content s kw).links.external_count =
        s.links.countP
          (fun l => decide ("http".data <+: l.href.data ∨ "https".data <+: l.href.data))) ∧
    ((analyze_content c3NeitherSnapshot none).links.internal_count = 0 ∧
     (analyze_content c3NeitherSnapshot none).links.external_count = 0 ∧
     (analyze_content c3NeitherSnapshot none).links.total_count = 1) ∧
    ((analyze_content c3BothSnapshot none).links.internal_count = 1 ∧
     (analyze_content c3BothSnapshot none).links.external_count = 1 ∧
     (analyze_content c3BothSnapshot none).links.total_count = 1 ∧
     (analyze_content c3BothSnapshot none).links.total_count <
       (analyze_content c3BothSnapshot none).links.internal_count +
         (analyze_content c3BothSnapshot none).links.external_count) := by
  refine ⟨fun s kw => ⟨?_, ?_⟩, by decide, by decide⟩
  · show (s.links.filter _).length = _
    rw [List.countP_eq_length_filter]
    apply congrArg
    apply List.filter_congr
    intro l _
    rw [strStarts_eq_decide, strStarts_eq_decide, Bool.eq_iff_iff]
    simp
  · show (s.links.filter _).length = _
    rw [List.countP_eq_length_filter]
    apply congrArg
    apply List.filter_congr
    intro l _
    rw [strStarts_eq_decide, strStarts_eq_decide, Bool.eq_iff_iff]
    simp

/-! ## Word tokenization (C5) -/

/-- Dropping a prefix by a predicate never lengthens a list. -/
theorem dropWhile_length_le (p : Char → Bool) :
    ∀ (l : List Char), (l.dropWhile p).length ≤ l.length := by
  intro l
  induction l with
  | nil => exact Nat.le_refl _
  | cons c rest ih =>
    rw [List.dropWhile_cons]
    split
    · exact Nat.le_trans ih (Nat.le_succ _)
    · exact Nat.le_refl _

/-- Maximal-run view of word tokenization, following the specification
wording: scanning left to right, each token is a maximal run of word
characters. -/
def specTokens : List Char → List (List Char)
  | [] => []
  | c :: rest =>
    if isWordChar c then
      (c :: rest.takeWhile isWordChar) :: specTokens (rest.dropWhile isWordChar)
    else specTokens rest
termination_by s => s.length
decreasing_by
  · exact Nat.lt_succ_of_le (dropWhile_length_le isWordChar rest)
  · exact Nat.lt_succ_of_le (Nat.le_refl _)

/-- The accumulator scan agrees with the maximal-run view: with run
`cur` in progress, it emits `cur` extended by the next maximal run and
continues behind it. -/
theorem tokensAux_spec (s : List Char) : ∀ (cur : List Char),
    tokensAux s cur =
      if cur.isEmpty then specTokens s
      else (cur.reverse ++ s.takeWhile isWordChar) :: specTokens (s.dropWhile isWordChar) := by
  induction s with
  | nil =>
    intro cur
    cases cur <;> simp [tokensAux, specTokens]
  | cons c rest ih =>
    intro cur
    by_cases hw : isWordChar c
    · rw [show tokensAux (c :: rest) cur = tokensAux rest (c :: cur) by
        simp [tokensAux, hw]]
      rw [ih (c :: cur)]
      cases cur <;>
        simp [specTokens, hw, List.takeWhile_cons, List.dropWhile_cons]
    · have hb : (isWordChar c) = false := Bool.not_eq_true _ ▸ by simpa using hw
      cases cur with
      | nil =>
        rw [show tokensAux (c :: rest) [] = tokensAux rest [] by simp [tokensAux, hb]]
        rw [ih []]
        simp [specTokens, hb]
      | cons d ds =>
        rw [show tokensAux (c :: rest) (d :: ds) = (d :: ds).reverse :: tokensAux rest [] by
          simp [tokensAux, hb]]
        rw [ih []]
        simp [specTokens, hb, List.takeWhile_cons, List.dropWhile_cons]

/-- The analyzer's tokenizer is the maximal-run tokenizer. -/
theorem wordTokens_eq_specTokens (s : String) : wordTokens s = specTokens s.data := by
  rw [wordTokens, tokensAux_spec]
  rfl

/-- Every keyword entry of an analysis is the metrics of its keyword
computed against the analysis word count. -/
theorem analyze_keywords_entry (s : Snapshot) (kw : Option (List String)) :
    ∀ entry ∈ ((analyze_content s kw).keywords.getD []),
      entry = keywordMetrics s (analyze_content s kw).content.word_count entry.1 := by
  intro entry hentry
  have hk : (analyze_content s kw).keywords =
      if (kw.getD []).isEmpty then none
      else some ((dedupAux (kw.getD []) []).map
        (keywordMetrics s (analyze_content s kw).content.word_count)) := rfl
  rw [hk] at hentry
  split at hentry
  · simp at hentry
  · simp only [Option.getD_some, List.mem_map] at hentry
    obtain ⟨k, -, rfl⟩ := hentry
    rfl

/-- Snapshot whose content has exactly 300 word tokens. -/
def c5Snapshot300 : Snapshot :=
  { url := ""
    title := ""
    meta_description := ""
    headings := { h1 := [], h2 := [], h3 := [] }
    content := String.mk ((List.replicate 300 ['a', ' ']).flatten)
    links := []
    images := [] }

/-- Snapshot whose content has exactly 299 word tokens. -/
def c5Snapshot299 : Snapshot :=
  { url := ""
    title := ""
    meta_description := ""
    headings := { h1 := [], h2 := [], h3 := [] }
    content := String.mk ((List.replicate 299 ['a', ' ']).flatten)
    links := []
    images := [] }

set_option maxRecDepth 40000 in
/-- C5: the word count is the number of maximal word-character runs of
the lower-cased content, content is sufficient exactly from 300 words
up (300 gives true, 299 false), and the same word count is the density
denominator of every keyword entry. -/
theorem c5_word_count_spec :
    (∀ (s : Snapshot) (kw : Option (List String)),
      (analyze_content s kw).content.word_count =
        (specTokens (pyLower s.content).data).length ∧
      ((analyze_content s kw).content.has_sufficient_content = true ↔
        300 ≤ (analyze_content s kw).content.word_count) ∧
      (∀ entry ∈ ((analyze_content s kw).keywords.getD []),
        entry.2.density =
          round2 (if 0 < (analyze_content s kw).content.word_count
            then (entry.2.count : Rat) / ((analyze_content s kw).content.word_count : Rat) * 100
            else 0))) ∧
    (analyze_content c5Snapshot300 none).content.word_count = 300 ∧
    (analyze_content c5Snapshot300 none).content.has_sufficient_content = true ∧
    (analyze_content c5Snapshot299 none).content.word_count = 299 ∧
    (analyze_content c5Snapshot299 none).content.has_sufficient_content = false := by
  refine ⟨fun s kw => ⟨?_, ?_, ?_⟩, by decide, by decide, by decide, by decide⟩
  · show (wordTokens (pyLower s.content)).length = _
    rw [wordTokens_eq_specTokens]
  · show (decide (300 ≤ (wordTokens (pyLower s.content)).length) = true) ↔
        300 ≤ (wordTokens (pyLower s.content)).length
    simp
  · intro entry hentry
    rw [analyze_keywords_entry s kw entry hentry]
    rfl

/-- Snapshot of the keyword example (section 8): body text
`seo seo seo`, analysed against the keyword `seo`. -/
def kwSnapshot : Snapshot :=
  { url := "https://x.com"
    title := ""
    meta_description := ""
    headings := { h1 := [], h2 := [], h3 := [] }
    content := "seo seo seo"
    links := []
    images := [] }

/-- Witness for C4 at the empty-title, empty-meta snapshot. -/
theorem c4_optimal_length_boundaries_witness :
    (analyze_content exSnapshot none).title.optimal_length = false ∧
    (analyze_content exSnapshot none).meta_description.optimal_length = false :=
  ⟨(c4_optimal_length_boundaries exSnapshot none).2.1 rfl,
   (c4_optimal_length_boundaries exSnapshot none).2.2.2 rfl⟩

/-- Witness for C5: the density of the `seo` keyword entry of the
example snapshot is computed against the analysis word count. -/
theorem c5_word_count_spec_witness :
    (keywordMetrics kwSnapshot
        (analyze_content kwSnapshot (some ["seo"])).content.word_count "seo").2.density =
      round2 (if 0 < (analyze_content kwSnapshot (some ["seo"])).content.word_count
        then ((keywordMetrics kwSnapshot
            (analyze_content kwSnapshot (some ["seo"])).content.word_count "seo").2.count : Rat) /
          ((analyze_content kwSnapshot (some ["seo"])).content.word_count : Rat) * 100
        else 0) :=
  (c5_word_count_spec.1 kwSnapshot (some ["seo"])).2.2 _ (List.mem_singleton_self _)

/-! ## Message discrimination

Every recommendation message family has a distinct run of first
characters; the first ten characters therefore tell any two message
families apart, including the parameterized ones (whose parameters only
appear later in the string). -/

/-- The first ten characters of a string. -/
def strHead (s : String) : List Char := s.data.take 10

/-- Strings with different ten-character heads are different. -/
theorem ne_of_strHead {a b : String} (h : strHead a ≠ strHead b) : a ≠ b :=
  fun e => h (congrArg strHead e)

/-- The ten-character head of an append is that of a long enough left
part. -/
theorem strHead_append {x : String} (y : String) (h : 10 ≤ x.data.length) :
    strHead (x ++ y) = strHead x := by
  rw [strHead, strHead, String.data_append, List.take_append_of_le_length h]

/-- Head of the keyword-inclusion message. -/
theorem strHead_msgKwInclude (k : String) :
    strHead (msgKwInclude k) = "Include th".data := by
  unfold msgKwInclude
  rw [strHead_append _ (by decide)]
  decide

/-- Head of the keyword-under-used message. -/
theorem strHead_msgKwIncrease (k : String) (d : Rat) :
    strHead (msgKwIncrease k d) = "Consider i".data := by
  unfold msgKwIncrease
  rw [strHead_append _ (by decide)]
  decide

/-- Head of the keyword-over-used message. -/
theorem strHead_msgKwReduce (k : String) (d : Rat) :
    strHead (msgKwReduce k d) = "Reduce the".data := by
  unfold msgKwReduce
  rw [strHead_append _ (by decide)]
  decide

/-- Head of the missing-alt-text message. -/
theorem strHead_msgAltText (n : Nat) :
    strHead (msgAltText n) = "Add alt te".data := by
  unfold msgAltText
  rw [strHead_append _ (by decide)]
  decide

/-- Head of the critical performance message. -/
theorem strHead_msgPerfCritical (p : Nat) :
    strHead (msgPerfCritical p) = "Improve pa".data := by
  unfold msgPerfCritical
  rw [strHead_append _ (by decide)]
  decide

/-- Head of the important performance message. -/
theorem strHead_msgPerfImprove (p : Nat) :
    strHead (msgPerfImprove p) = "Consider o".data := by
  unfold msgPerfImprove
  rw [strHead_append _ (by decide)]
  decide

/-- Head of the technical-SEO message. -/
theorem strHead_msgSeoIssues (p : Nat) :
    strHead (msgSeoIssues p) = "Address te".data := by
  unfold msgSeoIssues
  rw [strHead_append _ (by decide)]
  decide

/-- Head of the accessibility message. -/
theorem strHead_msgAccessibility (p : Nat) :
    strHead (msgAccessibility p) = "Improve ac".data := by
  unfold msgAccessibility
  rw [strHead_append _ (by decide)]
  decide

/-! ## Bucket membership characterizations -/

/-- Membership in a conditional singleton. -/
theorem mem_ite_singleton {c : Prop} [Decidable c] {m x : String} :
    (m ∈ if c then [x] else []) ↔ c ∧ m = x := by
  split <;> simp_all

/-- The critical bucket holds exactly the fired critical rules. -/
theorem mem_critical_iff (a : AnalysisResult) (l : AuditScores) (m : String) :
    m ∈ (generate_recommendations a l).critical ↔
      (a.title.has_title = false ∧ m = msgTitleMissing) ∨
      (a.meta_description.has_meta = false ∧ m = msgMetaMissing) ∨
      (a.headings.has_proper_structure = false ∧ a.headings.h1_count = 0 ∧
        m = msgH1Missing) ∨
      (l.performance < 90 ∧ m = msgPerfCritical l.performance) := by
  unfold generate_recommendations
  simp only [List.mem_append, mem_ite_singleton, Bool.and_eq_true, Bool.not_eq_true',
    beq_iff_eq, and_assoc, or_assoc]

/-- The important bucket holds exactly the fired important rules. -/
theorem mem_important_iff (a : AnalysisResult) (l : AuditScores) (m : String) :
    m ∈ (generate_recommendations a l).important ↔
      (a.title.has_title = true ∧ a.title.optimal_length = false ∧ m = msgTitleLength) ∨
      (a.meta_description.has_meta = true ∧ a.meta_description.optimal_length = false ∧
        m = msgMetaLength) ∨
      (a.headings.has_proper_structure = false ∧ ¬a.headings.h1_count = 0 ∧
        1 < a.headings.h1_count ∧ m = msgH1Multiple) ∨
      (a.content.has_sufficient_content = false ∧ m = msgThinContent) ∨
      (∃ kv ∈ a.keywords.getD [], m ∈ keywordImportantRecs kv) ∨
      (0 < a.images.missing_alt_count ∧ m = msgAltText a.images.missing_alt_count) ∨
      (¬l.performance < 90 ∧ l.performance < 95 ∧ m = msgPerfImprove l.performance) ∨
      (l.seo < 90 ∧ m = msgSeoIssues l.seo) ∨
      (l.accessibility < 90 ∧ m = msgAccessibility l.accessibility) := by
  unfold generate_recommendations
  simp only [List.mem_append, mem_ite_singleton, List.mem_flatten, List.mem_map,
    Bool.and_eq_true, Bool.not_eq_true', beq_eq_false_iff_ne, decide_eq_true_eq,
    decide_eq_false_iff_not, not_lt, and_assoc, or_assoc,
    exists_exists_and_eq_and]

/-- The minor bucket holds exactly the fired minor rules. -/
theorem mem_minor_iff (a : AnalysisResult) (l : AuditScores) (m : String) :
    m ∈ (generate_recommendations a l).minor ↔
      (∃ kv ∈ a.keywords.getD [], m ∈ keywordMinorRecs kv) ∨
      (a.links.internal_count = 0 ∧ m = msgInternalLinks) ∨
      (a.links.external_count = 0 ∧ m = msgExternalLinks) := by
  unfold generate_recommendations
  simp only [List.mem_append, mem_ite_singleton, List.mem_flatten, List.mem_map,
    beq_iff_eq, or_assoc, exists_exists_and_eq_and]

/-! ## Keyword rule lemmas (C2) -/

/-- Everything the keyword rules put into the minor bucket is an
under-used message. -/
theorem keywordMinorRecs_strHead {m : String} {kv : String × KeywordData}
    (h : m ∈ keywordMinorRecs kv) : strHead m = "Consider i".data := by
  unfold keywordMinorRecs at h
  split at h
  · obtain rfl := List.mem_singleton.mp h
    exact strHead_msgKwIncrease kv.1 kv.2.density
  · simp at h

/-- Everything the keyword rules put into the important bucket is an
inclusion or an over-used message. -/
theorem keywordImportantRecs_strHead {m : String} {kv : String × KeywordData}
    (h : m ∈ keywordImportantRecs kv) :
    strHead m = "Include th".data ∨ strHead m = "Reduce the".data := by
  unfold keywordImportantRecs at h
  rcases List.mem_append.mp h with h | h
  · left
    obtain ⟨-, rfl⟩ := mem_ite_singleton.mp h
    exact strHead_msgKwInclude kv.1
  · right
    split at h
    · simp at h
    · split at h
      · obtain rfl := List.mem_singleton.mp h
        exact strHead_msgKwReduce kv.1 kv.2.density
      · simp at h

/-- The under-used recommendation for a keyword fires exactly when its
density is strictly below 0.5. -/
theorem kwIncrease_mem_iff (k : String) (d : KeywordData) :
    msgKwIncrease k d.density ∈ keywordMinorRecs (k, d) ↔ d.density < 1/2 := by
  unfold keywordMinorRecs
  split <;> simp_all

/-- The over-used recommendation for a keyword fires exactly when its
density is strictly above 3. -/
theorem kwReduce_mem_iff (k : String) (d : KeywordData) :
    msgKwReduce k d.density ∈ keywordImportantRecs (k, d) ↔ 3 < d.density := by
  unfold keywordImportantRecs
  rw [List.mem_append]
  constructor
  · rintro (h | h)
    · obtain ⟨-, he⟩ := mem_ite_singleton.mp h
      exact absurd he
        (ne_of_strHead (by rw [strHead_msgKwReduce, strHead_msgKwInclude]; decide))
    · split at h
      · simp at h
      · split at h
        · assumption
        · simp at h
  · intro h3
    right
    have hnot : ¬ (d.density < 1/2) := by
      intro hlt
      have h32 : (3:Rat) < 1/2 := lt_trans h3 hlt
      norm_num at h32
    rw [if_neg hnot, if_pos h3]
    exact List.mem_singleton_self _

/-- Rounding zero gives zero. -/
theorem round2_zero : round2 0 = 0 := by
  unfold round2 roundHalfEven
  norm_num

/-- The density of the keyword example evaluates to exactly 100. -/
theorem round2_hundred : round2 (((3:Nat) : Rat) / ((3:Nat) : Rat) * 100) = 100 := by
  have h : (((3:Nat) : Rat) / ((3:Nat) : Rat) * 100) = 100 := by norm_num
  rw [h]
  unfold round2 roundHalfEven
  norm_num

/-- The metrics entry the example analysis computes for `seo`. -/
def c2Entry : KeywordData :=
  { count := 3, density := 100, in_title := false, in_meta := false, in_headings := false }

/-- A keyword entry with density exactly one half. -/
def halfEntry : KeywordData :=
  { count := 0, density := 1/2, in_title := false, in_meta := false, in_headings := false }

/-- A keyword entry with density exactly three. -/
def threeEntry : KeywordData :=
  { count := 0, density := 3, in_title := false, in_meta := false, in_headings := false }

/-- The keyword entry computed for the `seo seo seo` example. -/
theorem c2_entries_eval :
    (analyze_content kwSnapshot (some ["seo"])).keywords.getD [] = [("seo", c2Entry)] := by
  have h0 : (analyze_content kwSnapshot (some ["seo"])).keywords.getD [] =
      [("seo", { count := 3,
                 density := round2 (((3:Nat) : Rat) / ((3:Nat) : Rat) * 100),
                 in_title := false, in_meta := false, in_headings := false })] := rfl
  rw [h0, round2_hundred]
  rfl

/-- C2: each keyword entry's count is the non-overlapping
case-insensitive substring count in the body text and its density is
that count over the word count times 100 rounded to two decimals (zero
when the word count is zero); the under-used flag fires exactly below
density 0.5 and the over-used flag exactly above 3, both strict, so
densities exactly 0.5 and exactly 3 fire neither; on `seo seo seo` with
keyword `seo` the count is 3 and the density 100, firing the over-used
and not the under-used recommendation. -/
theorem c2_keyword_density :
    (∀ (s : Snapshot) (kws : List String),
      ∀ entry ∈ ((analyze_content s (some kws)).keywords.getD []),
        entry.2.count = pyCount (pyLower entry.1).data (pyLower s.content).data ∧
        entry.2.density =
          round2 (if 0 < (analyze_content s (some kws)).content.word_count
            then (entry.2.count : Rat) /
              ((analyze_content s (some kws)).content.word_count : Rat) * 100
            else 0) ∧
        ((analyze_content s (some kws)).content.word_count = 0 → entry.2.density = 0)) ∧
    (∀ (k : String) (d : KeywordData),
      (msgKwIncrease k d.density ∈ keywordMinorRecs (k, d) ↔ d.density < 1/2) ∧
      (msgKwReduce k d.density ∈ keywordImportantRecs (k, d) ↔ 3 < d.density) ∧
      (d.density = 1/2 → msgKwIncrease k d.density ∉ keywordMinorRecs (k, d)) ∧
      (d.density = 3 → msgKwReduce k d.density ∉ keywordImportantRecs (k, d))) ∧
    ((analyze_content kwSnapshot (some ["seo"])).keywords.getD [] = [("seo", c2Entry)]) ∧
    (msgKwReduce "seo" 100 ∈
      (generate_recommendations (analyze_content kwSnapshot (some ["seo"])) exAudit).important) ∧
    (msgKwIncrease "seo" 100 ∉
      (generate_recommendations (analyze_content kwSnapshot (some ["seo"])) exAudit).minor) := by
  refine ⟨?_, ?_, c2_entries_eval, ?_, ?_⟩
  · intro s kws entry hentry
    have he := analyze_keywords_entry s (some kws) entry hentry
    refine ⟨?_, ?_, ?_⟩
    · rw [he]; rfl
    · rw [he]; rfl
    · intro h0
      rw [he, h0]
      exact round2_zero
  · intro k d
    refine ⟨kwIncrease_mem_iff k d, kwReduce_mem_iff k d, ?_, ?_⟩
    · intro hhalf hmem
      have hl := (kwIncrease_mem_iff k d).mp hmem
      rw [hhalf] at hl
      norm_num at hl
    · intro hthree hmem
      have hl := (kwReduce_mem_iff k d).mp hmem
      rw [hthree] at hl
      norm_num at hl
  · rw [mem_important_iff]
    refine Or.inr (Or.inr (Or.inr (Or.inr (Or.inl ?_))))
    refine ⟨("seo", c2Entry), ?_, ?_⟩
    · rw [c2_entries_eval]
      exact List.mem_singleton_self _
    · exact (kwReduce_mem_iff "seo" c2Entry).mpr (by norm_num [c2Entry])
  · intro hmem
    rw [mem_minor_iff] at hmem
    rcases hmem with ⟨kv, hkv, hm⟩ | ⟨-, he⟩ | ⟨-, he⟩
    · rw [c2_entries_eval] at hkv
      obtain rfl := List.mem_singleton.mp hkv
      have hl := (kwIncrease_mem_iff "seo" c2Entry).mp hm
      norm_num [c2Entry] at hl
    · exact (ne_of_strHead (by rw [strHead_msgKwIncrease]; decide)) he
    · exact (ne_of_strHead (by rw [strHead_msgKwIncrease]; decide)) he

/-- Witness for C2: the `seo` entry of the example satisfies the count
formula, and the boundary entries at densities exactly one half and
exactly three fire neither density flag. -/
theorem c2_keyword_density_witness :
    (("seo", c2Entry) : String × KeywordData).2.count =
      pyCount (pyLower ("seo", c2Entry).1).data (pyLower kwSnapshot.content).data ∧
    msgKwIncrease "half" halfEntry.density ∉ keywordMinorRecs ("half", halfEntry) ∧
    msgKwReduce "three" threeEntry.density ∉ keywordImportantRecs ("three", threeEntry) :=
  ⟨(c2_keyword_density.1 kwSnapshot ["seo"] ("seo", c2Entry)
      (by rw [c2_entries_eval]; exact List.mem_singleton_self _)).1,
   (c2_keyword_density.2.1 "half" halfEntry).2.2.1 rfl,
   (c2_keyword_density.2.1 "three" threeEntry).2.2.2 rfl⟩

/-! ## Rule exclusivity (C6) -/

/-- A message whose head is neither the inclusion nor the over-used head
is never a keyword contribution to the important bucket. -/
theorem notKwImportant {m : String} (hm1 : strHead m ≠ "Include th".data)
    (hm2 : strHead m ≠ "Reduce the".data) :
    ∀ kv : String × KeywordData, m ∉ keywordImportantRecs kv := by
  intro kv h
  rcases keywordImportantRecs_strHead h with h' | h'
  exacts [hm1 h', hm2 h']

/-- A message whose head is not the under-used head is never a keyword
contribution to the minor bucket. -/
theorem notKwMinor {m : String} (hm : strHead m ≠ "Consider i".data) :
    ∀ kv : String × KeywordData, m ∉ keywordMinorRecs kv := by
  intro kv h
  exact hm (keywordMinorRecs_strHead h)

/-- C6: within each rule at most one message can fire — the two title
messages appear under the exclusive conditions title-absent versus
title-present-but-not-optimal, likewise for the meta description; the
H1 rule is critical exactly at zero H1 headings and important exactly
above one (so neither fires at exactly one); the performance rule is
critical exactly below 90 and important exactly from 90 up to below 95
(so nothing fires from 95 up); and distinct rules accumulate
independently, the empty-page example populating all three buckets at
once. -/
theorem c6_rule_exclusivity :
    (∀ (a : AnalysisResult) (l : AuditScores),
      (msgTitleMissing ∈ (generate_recommendations a l).critical ↔
        a.title.has_title = false) ∧
      (msgTitleLength ∈ (generate_recommendations a l).important ↔
        (a.title.has_title = true ∧ a.title.optimal_length = false)) ∧
      (msgMetaMissing ∈ (generate_recommendations a l).critical ↔
        a.meta_description.has_meta = false) ∧
      (msgMetaLength ∈ (generate_recommendations a l).important ↔
        (a.meta_description.has_meta = true ∧ a.meta_description.optimal_length = false)) ∧
      (msgPerfCritical l.performance ∈ (generate_recommendations a l).critical ↔
        l.performance < 90) ∧
      (msgPerfImprove l.performance ∈ (generate_recommendations a l).important ↔
        (90 ≤ l.performance ∧ l.performance < 95))) ∧
    (∀ (s : Snapshot) (kw : Option (List String)) (l : AuditScores),
      (msgH1Missing ∈ (generate_recommendations (analyze_content s kw) l).critical ↔
        (analyze_content s kw).headings.h1_count = 0) ∧
      (msgH1Multiple ∈ (generate_recommendations (analyze_content s kw) l).important ↔
        1 < (analyze_content s kw).headings.h1_count)) ∧
    ((generate_recommendations (analyze_content exSnapshot none) exAudit).critical ≠ [] ∧
     (generate_recommendations (analyze_content exSnapshot none) exAudit).important ≠ [] ∧
     (generate_recommendations (analyze_content exSnapshot none) exAudit).minor ≠ []) := by
  refine ⟨?_, ?_, by decide, by decide, by decide⟩
  · intro a l
    have t1 : msgTitleMissing ≠ msgMetaMissing := by decide
    have t2 : msgTitleMissing ≠ msgH1Missing := by decide
    have t3 : ∀ p, msgTitleMissing ≠ msgPerfCritical p := fun p =>
      ne_of_strHead (by rw [strHead_msgPerfCritical]; decide)
    have u1 : msgTitleLength ≠ msgMetaLength := by decide
    have u2 : msgTitleLength ≠ msgH1Multiple := by decide
    have u3 : msgTitleLength ≠ msgThinContent := by decide
    have u4 : ∀ kv : String × KeywordData, msgTitleLength ∉ keywordImportantRecs kv :=
      notKwImportant (by decide) (by decide)
    have u5 : ∀ n, msgTitleLength ≠ msgAltText n := fun n =>
      ne_of_strHead (by rw [strHead_msgAltText]; decide)
    have u6 : ∀ p, msgTitleLength ≠ msgPerfImprove p := fun p =>
      ne_of_strHead (by rw [strHead_msgPerfImprove]; decide)
    have u7 : ∀ p, msgTitleLength ≠ msgSeoIssues p := fun p =>
      ne_of_strHead (by rw [strHead_msgSeoIssues]; decide)
    have u8 : ∀ p, msgTitleLength ≠ msgAccessibility p := fun p =>
      ne_of_strHead (by rw [strHead_msgAccessibility]; decide)
    have m1 : msgMetaMissing ≠ msgTitleMissing := by decide
    have m2 : msgMetaMissing ≠ msgH1Missing := by decide
    have m3 : ∀ p, msgMetaMissing ≠ msgPerfCritical p := fun p =>
      ne_of_strHead (by rw [strHead_msgPerfCritical]; decide)
    have n1 : msgMetaLength ≠ msgTitleLength := by decide
    have n2 : msgMetaLength ≠ msgH1Multiple := by decide
    have n3 : msgMetaLength ≠ msgThinContent := by decide
    have n4 : ∀ kv : String × KeywordData, msgMetaLength ∉ keywordImportantRecs kv :=
      notKwImportant (by decide) (by decide)
    have n5 : ∀ n, msgMetaLength ≠ msgAltText n := fun n =>
      ne_of_strHead (by rw [strHead_msgAltText]; decide)
    have n6 : ∀ p, msgMetaLength ≠ msgPerfImprove p := fun p =>
      ne_of_strHead (by rw [strHead_msgPerfImprove]; decide)
    have n7 : ∀ p, msgMetaLength ≠ msgSeoIssues p := fun p =>
      ne_of_strHead (by rw [strHead_msgSeoIssues]; decide)
    have n8 : ∀ p, msgMetaLength ≠ msgAccessibility p := fun p =>
      ne_of_strHead (by rw [strHead_msgAccessibility]; decide)
    have v1 : ∀ p, msgPerfCritical p ≠ msgTitleMissing := fun p =>
      ne_of_strHead (by rw [strHead_msgPerfCritical]; decide)
    have v2 : ∀ p, msgPerfCritical p ≠ msgMetaMissing := fun p =>
      ne_of_strHead (by rw [strHead_msgPerfCritical]; decide)
    have v3 : ∀ p, msgPerfCritical p ≠ msgH1Missing := fun p =>
      ne_of_strHead (by rw [strHead_msgPerfCritical]; decide)
    have w1 : ∀ p, msgPerfImprove p ≠ msgTitleLength := fun p =>
      ne_of_strHead (by rw [strHead_msgPerfImprove]; decide)
    have w2 : ∀ p, msgPerfImprove p ≠ msgMetaLength := fun p =>
      ne_of_strHead (by rw [strHead_msgPerfImprove]; decide)
    have w3 : ∀ p, msgPerfImprove p ≠ msgH1Multiple := fun p =>
      ne_of_strHead (by rw [strHead_msgPerfImprove]; decide)
    have w4 : ∀ p, msgPerfImprove p ≠ msgThinContent := fun p =>
      ne_of_strHead (by rw [strHead_msgPerfImprove]; decide)
    have w5 : ∀ p, ∀ kv : String × KeywordData, msgPerfImprove p ∉ keywordImportantRecs kv :=
      fun p => notKwImportant (by rw [strHead_msgPerfImprove]; decide)
        (by rw [strHead_msgPerfImprove]; decide)
    have w6 : ∀ p n, msgPerfImprove p ≠ msgAltText n := fun p n =>
      ne_of_strHead (by rw [strHead_msgPerfImprove, strHead_msgAltText]; decide)
    have w7 : ∀ p q, msgPerfImprove p ≠ msgSeoIssues q := fun p q =>
      ne_of_strHead (by rw [strHead_msgPerfImprove, strHead_msgSeoIssues]; decide)
    have w8 : ∀ p q, msgPerfImprove p ≠ msgAccessibility q := fun p q =>
      ne_of_strHead (by rw [strHead_msgPerfImprove, strHead_msgAccessibility]; decide)
    refine ⟨?_, ?_, ?_, ?_, ?_, ?_⟩
    · rw [mem_critical_iff]; simp [t1, t2, t3]
    · rw [mem_important_iff]; simp [u1, u2, u3, u4, u5, u6, u7, u8]
    · rw [mem_critical_iff]; simp [m1, m2, m3]
    · rw [mem_important_iff]; simp [n1, n2, n3, n4, n5, n6, n7, n8]
    · rw [mem_critical_iff]; simp [v1, v2, v3]
    · rw [mem_important_iff]; simp [w1, w2, w3, w4, w5, w6, w7, w8, not_lt]
  · intro s kw l
    have hp : (analyze_content s kw).headings.has_proper_structure =
        ((analyze_content s kw).headings.h1_count == 1) := rfl
    have t1 : msgH1Missing ≠ msgTitleMissing := by decide
    have t2 : msgH1Missing ≠ msgMetaMissing := by decide
    have t3 : ∀ p, msgH1Missing ≠ msgPerfCritical p := fun p =>
      ne_of_strHead (by rw [strHead_msgPerfCritical]; decide)
    have u1 : msgH1Multiple ≠ msgTitleLength := by decide
    have u2 : msgH1Multiple ≠ msgMetaLength := by decide
    have u3 : msgH1Multiple ≠ msgThinContent := by decide
    have u4 : ∀ kv : String × KeywordData, msgH1Multiple ∉ keywordImportantRecs kv :=
      notKwImportant (by decide) (by decide)
    have u5 : ∀ n, msgH1Multiple ≠ msgAltText n := fun n =>
      ne_of_strHead (by rw [strHead_msgAltText]; decide)
    have u6 : ∀ p, msgH1Multiple ≠ msgPerfImprove p := fun p =>
      ne_of_strHead (by rw [strHead_msgPerfImprove]; decide)
    have u7 : ∀ p, msgH1Multiple ≠ msgSeoIssues p := fun p =>
      ne_of_strHead (by rw [strHead_msgSeoIssues]; decide)
    have u8 : ∀ p, msgH1Multiple ≠ msgAccessibility p := fun p =>
      ne_of_strHead (by rw [strHead_msgAccessibility]; decide)
    constructor
    · rw [mem_critical_iff]
      simp [hp, t1, t2, t3, beq_eq_false_iff_ne]
      omega
    · rw [mem_important_iff]
      simp [hp, u1, u2, u3, u4, u5, u6, u7, u8, beq_eq_false_iff_ne]
      omega

/-- Witness for C6: on the empty-page example all three buckets are
populated at once. -/
theorem c6_rule_exclusivity_witness :
    (generate_recommendations (analyze_content exSnapshot none) exAudit).critical ≠ [] :=
  c6_rule_exclusivity.2.2.1

/-! ## Keyword-free analyses produce keyword-free recommendations (C7) -/

/-- A message whose head differs from all three keyword-message heads is
not a keyword message, whatever keyword and density. -/
theorem not_kw_msg {m : String}
    (h1 : strHead m ≠ "Include th".data)
    (h2 : strHead m ≠ "Consider i".data)
    (h3 : strHead m ≠ "Reduce the".data) (k : String) (d : Rat) :
    m ≠ msgKwInclude k ∧ m ≠ msgKwIncrease k d ∧ m ≠ msgKwReduce k d :=
  ⟨fun e => h1 (by rw [e, strHead_msgKwInclude]),
   fun e => h2 (by rw [e, strHead_msgKwIncrease]),
   fun e => h3 (by rw [e, strHead_msgKwReduce])⟩

/-- C7: an analysis without a keywords field yields recommendations in
which no bucket contains any keyword message — no inclusion, under-used
or over-used message for any keyword and density. -/
theorem c7_no_keyword_messages (a : AnalysisResult) (l : AuditScores)
    (h : a.keywords = none) (m : String)
    (hm : m ∈ (generate_recommendations a l).critical ∨
          m ∈ (generate_recommendations a l).important ∨
          m ∈ (generate_recommendations a l).minor) :
    ∀ (k : String) (d : Rat),
      m ≠ msgKwInclude k ∧ m ≠ msgKwIncrease k d ∧ m ≠ msgKwReduce k d := by
  intro k d
  rcases hm with hc | hi | hmn
  · rw [mem_critical_iff] at hc
    rcases hc with ⟨-, rfl⟩ | ⟨-, rfl⟩ | ⟨-, -, rfl⟩ | ⟨-, rfl⟩
    · exact not_kw_msg (by decide) (by decide) (by decide) k d
    · exact not_kw_msg (by decide) (by decide) (by decide) k d
    · exact not_kw_msg (by decide) (by decide) (by decide) k d
    · exact not_kw_msg (by rw [strHead_msgPerfCritical]; decide)
        (by rw [strHead_msgPerfCritical]; decide)
        (by rw [strHead_msgPerfCritical]; decide) k d
  · rw [mem_important_iff] at hi
    rcases hi with ⟨-, -, rfl⟩ | ⟨-, -, rfl⟩ | ⟨-, -, -, rfl⟩ | ⟨-, rfl⟩ |
      ⟨kv, hkv, -⟩ | ⟨-, rfl⟩ | ⟨-, -, rfl⟩ | ⟨-, rfl⟩ | ⟨-, rfl⟩
    · exact not_kw_msg (by decide) (by decide) (by decide) k d
    · exact not_kw_msg (by decide) (by decide) (by decide) k d
    · exact not_kw_msg (by decide) (by decide) (by decide) k d
    · exact not_kw_msg (by decide) (by decide) (by decide) k d
    · rw [h] at hkv
      simp at hkv
    · exact not_kw_msg (by rw [strHead_msgAltText]; decide)
        (by rw [strHead_msgAltText]; decide)
        (by rw [strHead_msgAltText]; decide) k d
    · exact not_kw_msg (by rw [strHead_msgPerfImprove]; decide)
        (by rw [strHead_msgPerfImprove]; decide)
        (by rw [strHead_msgPerfImprove]; decide) k d
    · exact not_kw_msg (by rw [strHead_msgSeoIssues]; decide)
        (by rw [strHead_msgSeoIssues]; decide)
        (by rw [strHead_msgSeoIssues]; decide) k d
    · exact not_kw_msg (by rw [strHead_msgAccessibility]; decide)
        (by rw [strHead_msgAccessibility]; decide)
        (by rw [strHead_msgAccessibility]; decide) k d
  · rw [mem_minor_iff] at hmn
    rcases hmn with ⟨kv, hkv, -⟩ | ⟨-, rfl⟩ | ⟨-, rfl⟩
    · rw [h] at hkv
      simp at hkv
    · exact not_kw_msg (by decide) (by decide) (by decide) k d
    · exact not_kw_msg (by decide) (by decide) (by decide) k d

/-- Witness for C7 at the keyword-free empty-page example: the absent
title message it emits is no keyword message. -/
theorem c7_no_keyword_messages_witness :
    msgTitleMissing ≠ msgKwInclude "seo" ∧ msgTitleMissing ≠ msgKwIncrease "seo" 0 ∧
      msgTitleMissing ≠ msgKwReduce "seo" 0 :=
  c7_no_keyword_messages (analyze_content exSnapshot none) exAudit rfl msgTitleMissing
    (Or.inl (by decide)) "seo" 0
